import Mathlib

/-
Verification of the session-aware polling coordinator in
`src/custom_components/schluter/__init__.py`
(`SchluterDataUpdateCoordinator._async_update_data`, lines 92-116).

The method is embedded as a pure function over an explicit session state
(`self._sessionid : Option String`) and a tick environment that records the
result each external call would produce if invoked this tick:
  - `async_get_sessionid(username, password)` inside the 10-second
    `async_timeout` block (the `auth` field),
  - `async_get_current_thermostats(sessionid)` inside the same block
    (the `fetch` field),
  - `async_get_sessionid(username, password)` in the
    `except InvalidSessionIdError` handler, outside the timed block
    (the `reauth` field).
Calls inside the timed block may additionally be interrupted by the
`async_timeout.timeout(10)` context manager, which raises
`asyncio.TimeoutError`; this is the `Timed.timedOut` case.  The snapshot
type is an opaque parameter `α`, matching the code, which returns the
library's `dict[str, Any]` untouched.
-/

namespace Schluter

/-- Result of one call to `aioschluter.SchluterApi.async_get_sessionid`:
either a fresh token, or one of the exceptions the coordinator handles
(`InvalidUserPasswordError`, `ApiError`, `ClientConnectorError`). -/
inductive AuthResult where
  | ok (token : String)
  | invalidUserPassword
  | apiError
  | clientConnectorError
deriving DecidableEq

/-- Result of one call to
`aioschluter.SchluterApi.async_get_current_thermostats`: a snapshot of
type `α`, or one of the exceptions the coordinator's handlers cover
(`InvalidSessionIdError`, `InvalidUserPasswordError`, `ApiError`,
`ClientConnectorError`). -/
inductive FetchResult (α : Type) where
  | ok (data : α)
  | invalidSessionId
  | invalidUserPassword
  | apiError
  | clientConnectorError
deriving DecidableEq

/-- A call performed inside the `async_timeout.timeout(10)` block: either
the surrounding timeout fires during the await (the block raises
`asyncio.TimeoutError`), or the call completes with its own result. -/
inductive Timed (α : Type) where
  | timedOut
  | done (res : α)
deriving DecidableEq

/-- An exception escaping `_async_update_data` to the host:
`ConfigEntryAuthFailed` (fatal), `UpdateFailed` (retryable),
`InvalidSessionIdError` (would escape only if unhandled), or
`asyncio.TimeoutError` (raised by `async_timeout`, caught by none of the
method's `except` clauses). -/
inductive Raised where
  | configEntryAuthFailed
  | updateFailed
  | invalidSessionId
  | timeoutError
deriving DecidableEq

/-- How one invocation of `_async_update_data` terminates: a returned
snapshot, the implicit Python `return None` fall-through at the end of the
`except InvalidSessionIdError` handler, or a raised exception. -/
inductive UpdateOutcome (α : Type) where
  | ok (data : α)
  | noneReturned
  | raised (e : Raised)
deriving DecidableEq

/-- One external API call made during a tick, in order: a credential
exchange, or a thermostat fetch carrying the session token it was passed. -/
inductive Ev where
  | auth
  | fetch (token : String)
deriving DecidableEq

/-- Recognizer for fetch events in a tick's call trace. -/
def Ev.isFetch : Ev → Bool
  | .fetch _ => true
  | .auth => false

/-- Results the external collaborators would return this tick, one entry
per call site of `_async_update_data`. -/
structure TickEnv (α : Type) where
  auth : Timed AuthResult
  fetch : Timed (FetchResult α)
  reauth : AuthResult
deriving DecidableEq

/-- Everything observable about one invocation of `_async_update_data`:
the value of `self._sessionid` afterwards, the outcome, and the ordered
trace of external API calls issued. -/
structure TickResult (α : Type) where
  sessionid : Option String
  outcome : UpdateOutcome α
  trace : List Ev
deriving DecidableEq

/-- Embedding of lines 101-112: the fetch
`return await self._api.async_get_current_thermostats(self._sessionid)`
performed with token `t`, together with the
`except InvalidSessionIdError` handler (re-authenticate; on
`InvalidUserPasswordError` raise `ConfigEntryAuthFailed`; on `ApiError` or
`ClientConnectorError` raise `UpdateFailed`; on success fall through and
return `None`) and the outer `except` clauses at lines 113-116.
`t` is the held session id when the fetch starts and `pre` the calls made
earlier in the tick. -/
def fetchPhase {α : Type} (t : String) (pre : List Ev) (env : TickEnv α) :
    TickResult α :=
  match env.fetch with
  | .timedOut => ⟨some t, .raised .timeoutError, pre ++ [.fetch t]⟩
  | .done (.ok d) => ⟨some t, .ok d, pre ++ [.fetch t]⟩
  | .done .invalidUserPassword =>
      ⟨some t, .raised .configEntryAuthFailed, pre ++ [.fetch t]⟩
  | .done .apiError => ⟨some t, .raised .updateFailed, pre ++ [.fetch t]⟩
  | .done .clientConnectorError =>
      ⟨some t, .raised .updateFailed, pre ++ [.fetch t]⟩
  | .done .invalidSessionId =>
      match env.reauth with
      | .ok t2 => ⟨some t2, .noneReturned, pre ++ [.fetch t, .auth]⟩
      | .invalidUserPassword =>
          ⟨some t, .raised .configEntryAuthFailed, pre ++ [.fetch t, .auth]⟩
      | .apiError => ⟨some t, .raised .updateFailed, pre ++ [.fetch t, .auth]⟩
      | .clientConnectorError =>
          ⟨some t, .raised .updateFailed, pre ++ [.fetch t, .auth]⟩

/-- Embedding of `SchluterDataUpdateCoordinator._async_update_data`
(lines 92-116).  `st` is `self._sessionid` on entry.  Lines 97-100: if no
session id is held, call `async_get_sessionid`; an
`InvalidUserPasswordError` from it is caught at line 113 and re-raised as
`ConfigEntryAuthFailed`, an `ApiError` or `ClientConnectorError` at line
115 as `UpdateFailed`, and an expiry of the `async_timeout` window
propagates as an uncaught `asyncio.TimeoutError`.  Otherwise the held or
freshly stored token is used for the fetch of `fetchPhase`. -/
def asyncUpdateData {α : Type} (st : Option String) (env : TickEnv α) :
    TickResult α :=
  match st with
  | some t => fetchPhase t [] env
  | none =>
      match env.auth with
      | .timedOut => ⟨none, .raised .timeoutError, [.auth]⟩
      | .done (.ok t) => fetchPhase t [.auth] env
      | .done .invalidUserPassword =>
          ⟨none, .raised .configEntryAuthFailed, [.auth]⟩
      | .done .apiError => ⟨none, .raised .updateFailed, [.auth]⟩
      | .done .clientConnectorError => ⟨none, .raised .updateFailed, [.auth]⟩

/-- The token `self._sessionid = t` is live for the fetch this tick: it
was either already held on entry, or the tick started with no token and
the initial credential exchange succeeded with `t`. -/
def TokenForFetch {α : Type} (st : Option String) (env : TickEnv α)
    (t : String) : Prop :=
  st = some t ∨ (st = none ∧ env.auth = .done (.ok t))

/-- The fixed per-tick timeout of `async_timeout.timeout(10)`, seconds. -/
def tickTimeoutSeconds : Nat := 10

/-- The polling interval `timedelta(minutes=1)` of the constructor. -/
def updateIntervalMinutes : Nat := 1

/-- Helper: whatever the fetch and re-authentication results are,
`fetchPhase` leaves some session id stored (either the token it fetched
with or the one obtained by re-authentication). -/
theorem fetchPhase_sessionid_isSome {α : Type} (t : String) (pre : List Ev)
    (env : TickEnv α) : ∃ t2, (fetchPhase t pre env).sessionid = some t2 := by
  rcases hf : env.fetch with _ | fr
  · exact ⟨t, by simp [fetchPhase, hf]⟩
  · rcases fr with d | _ | _ | _
    · exact ⟨t, by simp [fetchPhase, hf]⟩
    · rcases hr : env.reauth with t2 | _ | _ | _
      · exact ⟨t2, by simp [fetchPhase, hf, hr]⟩
      · exact ⟨t, by simp [fetchPhase, hf, hr]⟩
      · exact ⟨t, by simp [fetchPhase, hf, hr]⟩
      · exact ⟨t, by simp [fetchPhase, hf, hr]⟩
    · exact ⟨t, by simp [fetchPhase, hf]⟩
    · exact ⟨t, by simp [fetchPhase, hf]⟩
    · exact ⟨t, by simp [fetchPhase, hf]⟩

/-- Helper: when a session id is held on entry, the first external call of
the tick is the fetch with that very token. -/
theorem asyncUpdateData_some_trace_head {α : Type} (t : String)
    (env : TickEnv α) :
    (asyncUpdateData (some t) env).trace.head? = some (.fetch t) := by
  rcases hf : env.fetch with _ | fr
  · simp [asyncUpdateData, fetchPhase, hf]
  · rcases fr with d | _ | _ | _ <;>
      rcases hr : env.reauth with t2 | _ | _ | _ <;>
        simp [asyncUpdateData, fetchPhase, hf, hr]

/-- C1: for every tick in which the session token is already held or the
initial authentication succeeds, and the fetch call succeeds, the refresh
operation returns exactly the mapping produced by the fetch call, with no
keys or values added, removed, or modified. -/
theorem snapshot_returned_verbatim {α : Type} (st : Option String)
    (env : TickEnv α) (t : String) (d : α)
    (hheld : TokenForFetch st env t)
    (hfetch : env.fetch = .done (.ok d)) :
    (asyncUpdateData st env).outcome = .ok d := by
  rcases hheld with h | ⟨h1, h2⟩
  · subst h
    simp [asyncUpdateData, fetchPhase, hfetch]
  · subst h1
    simp [asyncUpdateData, h2, fetchPhase, hfetch]

/-- Witness for C1 at a concrete tick: no token held, authentication
yields token `tok`, fetch yields the snapshot `5`. -/
theorem snapshot_returned_verbatim_witness :
    TokenForFetch (α := Nat) none
      ⟨.done (.ok "tok"), .done (.ok 5), .ok "x"⟩ "tok" ∧
    (⟨.done (.ok "tok"), .done (.ok 5), .ok "x"⟩ : TickEnv Nat).fetch
      = .done (.ok 5) ∧
    (asyncUpdateData (α := Nat) none
      ⟨.done (.ok "tok"), .done (.ok 5), .ok "x"⟩).outcome = .ok 5 :=
  ⟨Or.inr ⟨rfl, rfl⟩, rfl,
    snapshot_returned_verbatim none ⟨.done (.ok "tok"), .done (.ok 5), .ok "x"⟩
      "tok" 5 (Or.inr ⟨rfl, rfl⟩) rfl⟩

/-- C2: for every tick that starts with no held token, if the credential
exchange reports invalid credentials, the refresh operation raises
`ConfigEntryAuthFailed` and the fetch operation is never invoked during
that tick. -/
theorem invalid_credentials_first_tick_fatal_no_fetch {α : Type}
    (env : TickEnv α) (h : env.auth = .done .invalidUserPassword) :
    (asyncUpdateData none env).outcome = .raised .configEntryAuthFailed ∧
    ∀ tk, Ev.fetch tk ∉ (asyncUpdateData none env).trace := by
  simp [asyncUpdateData, h]

/-- Witness for C2 at a concrete tick: no token held, credential exchange
reports invalid credentials. -/
theorem invalid_credentials_first_tick_fatal_no_fetch_witness :
    (⟨.done .invalidUserPassword, .done (.ok 0), .ok "x"⟩ : TickEnv Nat).auth
      = .done .invalidUserPassword ∧
    (asyncUpdateData (α := Nat) none
      ⟨.done .invalidUserPassword, .done (.ok 0), .ok "x"⟩).outcome
        = .raised .configEntryAuthFailed ∧
    ∀ tk, Ev.fetch tk ∉ (asyncUpdateData (α := Nat) none
      ⟨.done .invalidUserPassword, .done (.ok 0), .ok "x"⟩).trace :=
  ⟨rfl,
    (invalid_credentials_first_tick_fatal_no_fetch
      ⟨.done .invalidUserPassword, .done (.ok 0), .ok "x"⟩ rfl).1,
    (invalid_credentials_first_tick_fatal_no_fetch
      ⟨.done .invalidUserPassword, .done (.ok 0), .ok "x"⟩ rfl).2⟩

/-- C3: for every tick in which the fetch raises the session-expired
error and the subsequent forced re-authentication succeeds, the refresh
operation raises no exception at all, and the fetch operation is called
exactly once within the tick (no retry with the new token). -/
theorem session_expired_reauth_ok_no_raise_single_fetch {α : Type}
    (st : Option String) (env : TickEnv α) (t t2 : String)
    (hheld : TokenForFetch st env t)
    (hexp : env.fetch = .done .invalidSessionId)
    (hre : env.reauth = .ok t2) :
    (∀ e, (asyncUpdateData st env).outcome ≠ .raised e) ∧
    (asyncUpdateData st env).trace.countP (fun ev => Ev.isFetch ev) = 1 := by
  rcases hheld with h | ⟨h1, h2⟩
  · subst h
    simp [asyncUpdateData, fetchPhase, hexp, hre, List.countP_cons, Ev.isFetch]
  · subst h1
    simp [asyncUpdateData, h2, fetchPhase, hexp, hre, List.countP_cons,
      Ev.isFetch]

/-- Witness for C3 at a concrete tick: token `tok` held, fetch reports
session-expired, re-authentication succeeds with `t2`. -/
theorem session_expired_reauth_ok_no_raise_single_fetch_witness :
    TokenForFetch (α := Nat) (some "tok")
      ⟨.done (.ok "z"), .done .invalidSessionId, .ok "t2"⟩ "tok" ∧
    (∀ e, (asyncUpdateData (α := Nat) (some "tok")
      ⟨.done (.ok "z"), .done .invalidSessionId, .ok "t2"⟩).outcome
        ≠ .raised e) ∧
    (asyncUpdateData (α := Nat) (some "tok")
      ⟨.done (.ok "z"), .done .invalidSessionId, .ok "t2"⟩).trace.countP
        (fun ev => Ev.isFetch ev) = 1 :=
  ⟨Or.inl rfl,
    (session_expired_reauth_ok_no_raise_single_fetch (some "tok")
      ⟨.done (.ok "z"), .done .invalidSessionId, .ok "t2"⟩ "tok" "t2"
      (Or.inl rfl) rfl rfl).1,
    (session_expired_reauth_ok_no_raise_single_fetch (some "tok")
      ⟨.done (.ok "z"), .done .invalidSessionId, .ok "t2"⟩ "tok" "t2"
      (Or.inl rfl) rfl rfl).2⟩

/-- C4: for every tick in which the fetch raises the session-expired
error and the forced re-authentication reports invalid credentials, the
refresh operation raises exactly `ConfigEntryAuthFailed`, not
`UpdateFailed`. -/
theorem session_expired_reauth_invalid_credentials_fatal {α : Type}
    (st : Option String) (env : TickEnv α) (t : String)
    (hheld : TokenForFetch st env t)
    (hexp : env.fetch = .done .invalidSessionId)
    (hre : env.reauth = .invalidUserPassword) :
    (asyncUpdateData st env).outcome = .raised .configEntryAuthFailed := by
  rcases hheld with h | ⟨h1, h2⟩
  · subst h
    simp [asyncUpdateData, fetchPhase, hexp, hre]
  · subst h1
    simp [asyncUpdateData, h2, fetchPhase, hexp, hre]

/-- Witness for C4 at a concrete tick: token `tok` held, fetch reports
session-expired, re-authentication reports invalid credentials. -/
theorem session_expired_reauth_invalid_credentials_fatal_witness :
    TokenForFetch (α := Nat) (some "tok")
      ⟨.done (.ok "z"), .done .invalidSessionId, .invalidUserPassword⟩
        "tok" ∧
    (asyncUpdateData (α := Nat) (some "tok")
      ⟨.done (.ok "z"), .done .invalidSessionId,
        .invalidUserPassword⟩).outcome = .raised .configEntryAuthFailed :=
  ⟨Or.inl rfl,
    session_expired_reauth_invalid_credentials_fatal (some "tok")
      ⟨.done (.ok "z"), .done .invalidSessionId, .invalidUserPassword⟩ "tok"
      (Or.inl rfl) rfl rfl⟩

/-- C5: for every tick in which the fetch raises the session-expired
error and the forced re-authentication reports a service error
(`ApiError`) or a network failure (`ClientConnectorError`), the refresh
operation raises exactly `UpdateFailed`, not `ConfigEntryAuthFailed`. -/
theorem session_expired_reauth_service_error_retryable {α : Type}
    (st : Option String) (env : TickEnv α) (t : String)
    (hheld : TokenForFetch st env t)
    (hexp : env.fetch = .done .invalidSessionId)
    (hre : env.reauth = .apiError ∨ env.reauth = .clientConnectorError) :
    (asyncUpdateData st env).outcome = .raised .updateFailed := by
  rcases hheld with h | ⟨h1, h2⟩ <;> rcases hre with hr | hr
  · subst h
    simp [asyncUpdateData, fetchPhase, hexp, hr]
  · subst h
    simp [asyncUpdateData, fetchPhase, hexp, hr]
  · subst h1
    simp [asyncUpdateData, h2, fetchPhase, hexp, hr]
  · subst h1
    simp [asyncUpdateData, h2, fetchPhase, hexp, hr]

/-- Witness for C5 at a concrete tick: token `tok` held, fetch reports
session-expired, re-authentication reports a service error. -/
theorem session_expired_reauth_service_error_retryable_witness :
    TokenForFetch (α := Nat) (some "tok")
      ⟨.done (.ok "z"), .done .invalidSessionId, .apiError⟩ "tok" ∧
    (asyncUpdateData (α := Nat) (some "tok")
      ⟨.done (.ok "z"), .done .invalidSessionId, .apiError⟩).outcome
        = .raised .updateFailed :=
  ⟨Or.inl rfl,
    session_expired_reauth_service_error_retryable (some "tok")
      ⟨.done (.ok "z"), .done .invalidSessionId, .apiError⟩ "tok"
      (Or.inl rfl) rfl (Or.inl rfl)⟩

/-- C6 counterexample: a tick with no held token whose timed window
expires during the initial authentication call terminates with the
uncaught `asyncio.TimeoutError`, which is neither `UpdateFailed` (as the
claim requires) nor `ConfigEntryAuthFailed`: none of the method's
`except` clauses (`InvalidSessionIdError`, `InvalidUserPasswordError`,
`ApiError`, `ClientConnectorError`) matches `asyncio.TimeoutError`. -/
theorem timeout_not_update_failed_counterexample :
    (asyncUpdateData (α := Nat) none
      ⟨.timedOut, .done (.ok 0), .ok "x"⟩).outcome = .raised .timeoutError ∧
    (asyncUpdateData (α := Nat) none
      ⟨.timedOut, .done (.ok 0), .ok "x"⟩).outcome
        ≠ .raised .updateFailed ∧
    (asyncUpdateData (α := Nat) none
      ⟨.timedOut, .done (.ok 0), .ok "x"⟩).outcome
        ≠ .raised .configEntryAuthFailed := by
  refine ⟨rfl, ?_, ?_⟩ <;> simp [asyncUpdateData]

/-- C6 amended: for every tick whose timed window expires (during the
initial authentication or during the fetch), the refresh operation
propagates the unclassified `asyncio.TimeoutError` — never
`ConfigEntryAuthFailed` and never `UpdateFailed`; classifying that
exception as a retryable failure is left to the host's coordinator base
class, outside this code. -/
theorem timeout_raises_timeout_error {α : Type} (st : Option String)
    (env : TickEnv α)
    (h : (st = none ∧ env.auth = .timedOut) ∨
      ((∃ t, TokenForFetch st env t) ∧ env.fetch = .timedOut)) :
    (asyncUpdateData st env).outcome = .raised .timeoutError := by
  rcases h with ⟨h1, h2⟩ | ⟨⟨t, ht⟩, hf⟩
  · subst h1
    simp [asyncUpdateData, h2]
  · rcases ht with h | ⟨h1, h2⟩
    · subst h
      simp [asyncUpdateData, fetchPhase, hf]
    · subst h1
      simp [asyncUpdateData, h2, fetchPhase, hf]

/-- Witness for the amended C6 at a concrete tick: no token held and the
timed window expires during the authentication call. -/
theorem timeout_raises_timeout_error_witness :
    ((none : Option String) = none ∧
      (⟨.timedOut, .done (.ok 0), .ok "x"⟩ : TickEnv Nat).auth = .timedOut) ∧
    (asyncUpdateData (α := Nat) none
      ⟨.timedOut, .done (.ok 0), .ok "x"⟩).outcome = .raised .timeoutError :=
  ⟨⟨rfl, rfl⟩,
    timeout_raises_timeout_error none ⟨.timedOut, .done (.ok 0), .ok "x"⟩
      (Or.inl ⟨rfl, rfl⟩)⟩

/-- C7 counterexample: token `tok0` is held, the fetch reports
session-expired, and the forced re-authentication fails with a service
error — afterwards the old token is still held (`self._sessionid` is only
assigned after `async_get_sessionid` returns successfully, so a failing
re-authentication leaves the expired token in place), contradicting the
claim that no token is held after a failed forced re-authentication. -/
theorem stale_token_retained_counterexample :
    (asyncUpdateData (α := Nat) (some "tok0")
      ⟨.done (.ok "z"), .done .invalidSessionId, .apiError⟩).sessionid
        = some "tok0" ∧
    (asyncUpdateData (α := Nat) (some "tok0")
      ⟨.done (.ok "z"), .done .invalidSessionId, .apiError⟩).sessionid
        ≠ none := by
  refine ⟨rfl, ?_⟩
  simp [asyncUpdateData, fetchPhase]

/-- C7 amended: when a fetch reports session-expired, the held token is
replaced by the fresh one exactly when the forced credential exchange
succeeds; when the forced re-authentication fails, the previously held
(expired) token remains stored — the token is never discarded without a
successful replacement. -/
theorem session_expired_token_replacement {α : Type} (st : Option String)
    (env : TickEnv α) (t : String)
    (hheld : TokenForFetch st env t)
    (hexp : env.fetch = .done .invalidSessionId) :
    (asyncUpdateData st env).sessionid =
      some (match env.reauth with | .ok t2 => t2 | _ => t) := by
  rcases hheld with h | ⟨h1, h2⟩
  · subst h
    rcases hr : env.reauth with t2 | _ | _ | _ <;>
      simp [asyncUpdateData, fetchPhase, hexp, hr]
  · subst h1
    rcases hr : env.reauth with t2 | _ | _ | _ <;>
      simp [asyncUpdateData, h2, fetchPhase, hexp, hr]

/-- Witness for the amended C7 at a concrete tick: token `tok0` held,
fetch reports session-expired, re-authentication fails with a service
error, and the stored session id is still `tok0` afterwards. -/
theorem session_expired_token_replacement_witness :
    TokenForFetch (α := Nat) (some "tok0")
      ⟨.done (.ok "z"), .done .invalidSessionId, .apiError⟩ "tok0" ∧
    (asyncUpdateData (α := Nat) (some "tok0")
      ⟨.done (.ok "z"), .done .invalidSessionId, .apiError⟩).sessionid
        = some "tok0" :=
  ⟨Or.inl rfl,
    session_expired_token_replacement (some "tok0")
      ⟨.done (.ok "z"), .done .invalidSessionId, .apiError⟩ "tok0"
      (Or.inl rfl) rfl⟩

/-- C8: the session-expired error never propagates out of the refresh
operation — no tick whatsoever terminates by raising
`InvalidSessionIdError`; and for every tick in which the fetch actually
raises it, the outcome is normal termination (the `None` fall-through),
`ConfigEntryAuthFailed`, or `UpdateFailed`. -/
theorem session_expired_never_propagates {α : Type} (st : Option String)
    (env : TickEnv α) :
    (asyncUpdateData st env).outcome ≠ .raised .invalidSessionId ∧
    (∀ t, TokenForFetch st env t → env.fetch = .done .invalidSessionId →
      ((asyncUpdateData st env).outcome = .noneReturned ∨
       (asyncUpdateData st env).outcome = .raised .configEntryAuthFailed ∨
       (asyncUpdateData st env).outcome = .raised .updateFailed)) := by
  obtain ⟨a, f, r⟩ := env
  constructor
  · rcases st with _ | t
    · rcases a with _ | ar
      · simp [asyncUpdateData]
      · rcases ar with t | _ | _ | _
        · rcases f with _ | fr
          · simp [asyncUpdateData, fetchPhase]
          · rcases fr with d | _ | _ | _ <;>
              rcases r with t2 | _ | _ | _ <;>
                simp [asyncUpdateData, fetchPhase]
        · simp [asyncUpdateData]
        · simp [asyncUpdateData]
        · simp [asyncUpdateData]
    · rcases f with _ | fr
      · simp [asyncUpdateData, fetchPhase]
      · rcases fr with d | _ | _ | _ <;>
          rcases r with t2 | _ | _ | _ <;>
            simp [asyncUpdateData, fetchPhase]
  · intro t ht hf
    rcases ht with h | ⟨h1, h2⟩
    · cases h
      subst hf
      rcases r with t2 | _ | _ | _ <;> simp [asyncUpdateData, fetchPhase]
    · cases h1
      cases h2
      subst hf
      rcases r with t2 | _ | _ | _ <;> simp [asyncUpdateData, fetchPhase]

/-- Witness for C8 at a concrete tick: token `tok` held and fetch reports
session-expired with a successful re-authentication. -/
theorem session_expired_never_propagates_witness :
    (asyncUpdateData (α := Nat) (some "tok")
      ⟨.done (.ok "z"), .done .invalidSessionId, .ok "t2"⟩).outcome
        ≠ .raised .invalidSessionId ∧
    ((asyncUpdateData (α := Nat) (some "tok")
      ⟨.done (.ok "z"), .done .invalidSessionId, .ok "t2"⟩).outcome
        = .noneReturned ∨
     (asyncUpdateData (α := Nat) (some "tok")
      ⟨.done (.ok "z"), .done .invalidSessionId, .ok "t2"⟩).outcome
        = .raised .configEntryAuthFailed ∨
     (asyncUpdateData (α := Nat) (some "tok")
      ⟨.done (.ok "z"), .done .invalidSessionId, .ok "t2"⟩).outcome
        = .raised .updateFailed) :=
  ⟨(session_expired_never_propagates (some "tok")
      ⟨.done (.ok "z"), .done .invalidSessionId, .ok "t2"⟩).1,
    (session_expired_never_propagates (some "tok")
      ⟨.done (.ok "z"), .done .invalidSessionId, .ok "t2"⟩).2 "tok"
      (Or.inl rfl) rfl⟩

/-- C9: after a tick in which the initial authentication succeeded and
stored a token, some token is held, and the next tick's first external
call is the fetch with that held token — no fresh credential-exchange
call happens before the fetch. -/
theorem token_reused_next_tick {α : Type} (env1 env2 : TickEnv α)
    (t : String) (hauth : env1.auth = .done (.ok t)) :
    ∃ t2, (asyncUpdateData none env1).sessionid = some t2 ∧
      (asyncUpdateData (asyncUpdateData none env1).sessionid env2).trace.head?
        = some (.fetch t2) := by
  have h1 : asyncUpdateData none env1 = fetchPhase t [.auth] env1 := by
    simp [asyncUpdateData, hauth]
  obtain ⟨t2, h2⟩ := fetchPhase_sessionid_isSome t [.auth] env1
  refine ⟨t2, ?_, ?_⟩
  · rw [h1, h2]
  · rw [h1, h2]
    exact asyncUpdateData_some_trace_head t2 env2

/-- Witness for C9 at concrete ticks: first tick authenticates as `tok`
and fetches successfully; second tick fetches successfully reusing
`tok`. -/
theorem token_reused_next_tick_witness :
    (⟨.done (.ok "tok"), .done (.ok 5), .ok "x"⟩ : TickEnv Nat).auth
      = .done (.ok "tok") ∧
    ∃ t2, (asyncUpdateData (α := Nat) none
        ⟨.done (.ok "tok"), .done (.ok 5), .ok "x"⟩).sessionid = some t2 ∧
      (asyncUpdateData (asyncUpdateData (α := Nat) none
          ⟨.done (.ok "tok"), .done (.ok 5), .ok "x"⟩).sessionid
        ⟨.done (.ok "y"), .done (.ok 7), .ok "w"⟩).trace.head?
          = some (.fetch t2) :=
  ⟨rfl,
    token_reused_next_tick ⟨.done (.ok "tok"), .done (.ok 5), .ok "x"⟩
      ⟨.done (.ok "y"), .done (.ok 7), .ok "w"⟩ "tok" rfl⟩

/-- C10: for every tick in which the fetch raises the session-expired
error and the forced re-authentication succeeds, the refresh operation
returns no snapshot at all — the Python function falls through its
`except InvalidSessionIdError` handler and returns `None`. -/
theorem session_expired_reauth_ok_returns_none {α : Type}
    (st : Option String) (env : TickEnv α) (t t2 : String)
    (hheld : TokenForFetch st env t)
    (hexp : env.fetch = .done .invalidSessionId)
    (hre : env.reauth = .ok t2) :
    (asyncUpdateData st env).outcome = .noneReturned := by
  rcases hheld with h | ⟨h1, h2⟩
  · subst h
    simp [asyncUpdateData, fetchPhase, hexp, hre]
  · subst h1
    simp [asyncUpdateData, h2, fetchPhase, hexp, hre]

/-- Witness for C10 at a concrete tick: token `tok` held, fetch reports
session-expired, re-authentication succeeds with `t2`. -/
theorem session_expired_reauth_ok_returns_none_witness :
    TokenForFetch (α := Nat) (some "tok")
      ⟨.done (.ok "z"), .done .invalidSessionId, .ok "t2"⟩ "tok" ∧
    (asyncUpdateData (α := Nat) (some "tok")
      ⟨.done (.ok "z"), .done .invalidSessionId, .ok "t2"⟩).outcome
        = .noneReturned :=
  ⟨Or.inl rfl,
    session_expired_reauth_ok_returns_none (some "tok")
      ⟨.done (.ok "z"), .done .invalidSessionId, .ok "t2"⟩ "tok" "t2"
      (Or.inl rfl) rfl rfl⟩

end Schluter
